import Mathlib

/-!
Verification development for the Email Productivity Agent repository.

The backend modules (prompts_manager.py, llm_client.py, processors.py,
inbox_loader.py, agent.py) and the processing loop of app.py are translated
into executable Lean definitions.  The external language-model service is
modelled as an explicit function argument (its response is an arbitrary
string), the environment and the network as explicit parameters, and the
backing files of the prompt store and the inbox as an explicit store state.
Python string/JSON library behaviour (str.strip, str.lower, substring tests,
json.loads) is modelled by the executable helpers below.
-/

namespace EmailAgent

/-! Section: Python string helpers -/

/-- Whitespace characters stripped by Python str.strip with no argument
(ASCII subset: space, tab, newline, carriage return, vertical tab, form feed). -/
def isPyWs (c : Char) : Bool :=
  [' ', '\t', '\n', '\r', '\x0b', '\x0c'].contains c

/-- Python s.strip(): remove leading and trailing whitespace. -/
def pyStrip (s : String) : String :=
  String.mk (((s.toList.dropWhile isPyWs).reverse.dropWhile isPyWs).reverse)

/-- Python s.split(chr(10))[0]: the text before the first newline
(the whole string when no newline occurs). -/
def firstLineOf (s : String) : String :=
  String.mk (s.toList.takeWhile (fun c => !(c == '\n')))

/-- Python s.lower() (ASCII case folding suffices for the queries involved). -/
def pyLower (s : String) : String :=
  String.mk (s.toList.map Char.toLower)

/-- Does pat occur as an initial segment of cs? -/
def matchesAt : List Char → List Char → Bool
  | _, [] => true
  | [], _ :: _ => false
  | x :: xs, p :: ps => x == p && matchesAt xs ps

/-- Does pat occur contiguously anywhere in cs? -/
def hasSubL : List Char → List Char → Bool
  | [], pat => pat.isEmpty
  | a :: t, pat => matchesAt (a :: t) pat || hasSubL t pat

/-- Python substring membership: pat in hay. -/
def hasSub (hay pat : String) : Bool :=
  hasSubL hay.toList pat.toList

/-- Index of the first occurrence of x in cs (Python s.find, none for -1). -/
def idxFirst : List Char → Char → Option Nat
  | [], _ => none
  | a :: t, x => if a == x then some 0 else (idxFirst t x).map (· + 1)

/-- Index of the last occurrence of x in cs (Python s.rfind, none for -1). -/
def idxLast (cs : List Char) (x : Char) : Option Nat :=
  match idxFirst cs.reverse x with
  | none => none
  | some k => some (cs.length - 1 - k)

/-- Python truthiness of an optional string: None and the empty string are falsy. -/
def pyTruthyStr : Option String → Bool
  | none => false
  | some s => !s.isEmpty

/-- Python x or d for an optional string x (falsy values replaced by d). -/
def pyOrStr (o : Option String) (d : String) : String :=
  match o with
  | some s => if s.isEmpty then d else s
  | none => d

/-! Section: JSON values and a model of json.loads

JSON numbers are modelled as integers; fractional and exponent forms are
outside the model (no claim involves numeric payloads).  Escapes cover the
standard single-character escapes and \uXXXX (without surrogate pairing). -/

/-- A parsed JSON value, as produced by Python json.loads. -/
inductive JVal where
  | null
  | bool (b : Bool)
  | num (n : Int)
  | str (s : String)
  | arr (xs : List JVal)
  | obj (kvs : List (String × JVal))

/-- JSON structural whitespace. -/
def isWsJ (c : Char) : Bool :=
  [' ', '\t', '\n', '\r'].contains c

/-- Value of a hexadecimal digit. -/
def hexVal (c : Char) : Option Nat :=
  if c.isDigit then some (c.toNat - 48)
  else if 97 ≤ c.toNat && c.toNat ≤ 102 then some (c.toNat - 87)
  else if 65 ≤ c.toNat && c.toNat ≤ 70 then some (c.toNat - 55)
  else none

/-- The single-character string escapes and their translations. -/
def escTable : List (Char × Char) :=
  [('"', '"'), ('\\', '\\'), ('/', '/'), ('n', '\n'),
   ('t', '\t'), ('r', '\r'), ('b', '\x08'), ('f', '\x0c')]

def escChar (c : Char) : Option Char :=
  (escTable.find? (fun q => q.1 == c)).map (fun q => q.2)

/-- Parse an integer JSON number (fraction and exponent forms are rejected,
see the module note). -/
def pNum (cs : List Char) : Option (JVal × List Char) :=
  let p := match cs with
    | '-' :: t => (true, t)
    | _ => (false, cs)
  let digits := p.2.takeWhile Char.isDigit
  let rest := p.2.dropWhile Char.isDigit
  if digits.isEmpty then none
  else
    match rest with
    | '.' :: _ => none
    | 'e' :: _ => none
    | 'E' :: _ => none
    | _ =>
      let v : Nat := digits.foldl (fun a c => a * 10 + (c.toNat - 48)) 0
      some (JVal.num (if p.1 then -(v : Int) else (v : Int)), rest)

mutual

/-- Parse one JSON value from cs; the fuel bounds recursion depth and is
always supplied large enough for the input (see parseJson). -/
def pVal : Nat → List Char → Option (JVal × List Char)
  | 0, _ => none
  | Nat.succ n, cs0 =>
    match cs0.dropWhile isWsJ with
    | [] => none
    | '{' :: rest =>
      let r2 := rest.dropWhile isWsJ
      (match r2 with
       | '}' :: r3 => some (JVal.obj [], r3)
       | _ => do
         let m ← pMembers n r2
         some (JVal.obj m.1, m.2))
    | '[' :: rest =>
      let r2 := rest.dropWhile isWsJ
      (match r2 with
       | ']' :: r3 => some (JVal.arr [], r3)
       | _ => do
         let es ← pElems n r2
         some (JVal.arr es.1, es.2))
    | '"' :: rest => do
      let sr ← pStr n rest
      some (JVal.str (String.mk sr.1), sr.2)
    | 't' :: 'r' :: 'u' :: 'e' :: rest => some (JVal.bool true, rest)
    | 'f' :: 'a' :: 'l' :: 's' :: 'e' :: rest => some (JVal.bool false, rest)
    | 'n' :: 'u' :: 'l' :: 'l' :: rest => some (JVal.null, rest)
    | c :: rest => if c == '-' || c.isDigit then pNum (c :: rest) else none

/-- Parse the members of a JSON object, positioned after the opening brace
(and not at an immediate closing brace). -/
def pMembers : Nat → List Char → Option (List (String × JVal) × List Char)
  | 0, _ => none
  | Nat.succ n, cs0 =>
    match cs0.dropWhile isWsJ with
    | '"' :: rest => do
      let kr ← pStr n rest
      match kr.2.dropWhile isWsJ with
      | ':' :: r4 => do
        let vr ← pVal n r4
        (match vr.2.dropWhile isWsJ with
         | ',' :: r7 => do
           let mr ← pMembers n r7
           some ((String.mk kr.1, vr.1) :: mr.1, mr.2)
         | '}' :: r7 => some ([(String.mk kr.1, vr.1)], r7)
         | _ => none)
      | _ => none
    | _ => none

/-- Parse the elements of a JSON array, positioned after the opening bracket
(and not at an immediate closing bracket). -/
def pElems : Nat → List Char → Option (List JVal × List Char)
  | 0, _ => none
  | Nat.succ n, cs0 => do
    let vr ← pVal n cs0
    match vr.2.dropWhile isWsJ with
    | ',' :: r4 => do
      let er ← pElems n r4
      some (vr.1 :: er.1, er.2)
    | ']' :: r4 => some ([vr.1], r4)
    | _ => none

/-- Parse the body of a JSON string literal, positioned after the opening
quote; returns the decoded characters and the remainder after the closing
quote. -/
def pStr : Nat → List Char → Option (List Char × List Char)
  | 0, _ => none
  | Nat.succ n, cs0 =>
    match cs0 with
    | [] => none
    | '"' :: rest => some ([], rest)
    | '\\' :: rest =>
      (match rest with
       | [] => none
       | 'u' :: a :: b :: c :: d :: r3 => do
         let ha ← hexVal a
         let hb ← hexVal b
         let hc ← hexVal c
         let hd ← hexVal d
         let sr ← pStr n r3
         some (Char.ofNat (((ha * 16 + hb) * 16 + hc) * 16 + hd) :: sr.1, sr.2)
       | e :: r2 => do
         let c ← escChar e
         let sr ← pStr n r2
         some (c :: sr.1, sr.2))
    | c :: rest => do
      let sr ← pStr n rest
      some (c :: sr.1, sr.2)

end

/-- Model of Python json.loads: parse a complete JSON document, allowing
surrounding whitespace only; none models a raised json.JSONDecodeError. -/
def parseJson (s : String) : Option JVal :=
  let cs := s.toList
  match pVal (4 * cs.length + 16) cs with
  | some (v, rest) => if (rest.dropWhile isWsJ).isEmpty then some v else none
  | none => none

/-! Section: Dictionary access helpers

Python dicts built by json.loads keep the last value for a duplicated key,
hence the reversed lookup. -/

/-- Lookup in a parsed JSON object (Python dict indexing / dict.get). -/
def jGet (kvs : List (String × JVal)) (k : String) : Option JVal :=
  (kvs.reverse.find? (fun p => p.1 == k)).map (fun p => p.2)

/-- dict.get for a string-valued field with a default.  Field values are
modelled at the dataclass-declared types: a present field carrying a
non-string JSON value is outside this model. -/
def jStrD (kvs : List (String × JVal)) (k : String) (d : String) : String :=
  match jGet kvs k with
  | some (JVal.str s) => s
  | _ => d

/-- dict.get for an integer-valued field with a default (same typing note). -/
def jIntD (kvs : List (String × JVal)) (k : String) (d : Int) : Int :=
  match jGet kvs k with
  | some (JVal.num n) => n
  | _ => d

/-- dict.get for an optional string field: a missing field and a JSON null
both become Python None (same typing note). -/
def jOptStr (kvs : List (String × JVal)) (k : String) : Option String :=
  match jGet kvs k with
  | some (JVal.str s) => some s
  | _ => none

/-- Lookup in a string-to-string dict (the prompt template mapping). -/
def dGet (d : List (String × String)) (k : String) : Option String :=
  (d.reverse.find? (fun p => p.1 == k)).map (fun p => p.2)

/-- dict.get with a default on a string-to-string dict. -/
def dGetD (d : List (String × String)) (k : String) (dflt : String) : String :=
  (dGet d k).getD dflt

/-- Key list of a dict in insertion order, first occurrence kept
(Python dict iteration order). -/
def dedupKeys : List String → List String → List String
  | [], _ => []
  | k :: t, seen => if seen.contains k then dedupKeys t seen else k :: dedupKeys t (k :: seen)

/-- Python iteration over a json.loads result: a list yields its elements, a
dict yields its keys, a string yields its characters as one-character
strings; iterating a number, boolean or None raises TypeError (none). -/
def pyIterElems : JVal → Option (List JVal)
  | JVal.arr xs => some xs
  | JVal.obj kvs => some ((dedupKeys (kvs.map (fun p => p.1)) []).map JVal.str)
  | JVal.str s => some (s.toList.map (fun c => JVal.str (String.mk [c])))
  | _ => none

/-! Section: Data models (backend/models.py)

DraftEmail.created_at (a wall-clock timestamp captured at construction) is
outside the model; every other field of the dataclasses is carried. -/

/-- backend/models.py Email. -/
structure Email where
  id : Int
  from_addr : String
  to_addr : String
  subject : String
  body : String
  timestamp : String
  raw_folder : String := "INBOX"
  category : Option String := none
deriving DecidableEq

/-- backend/models.py ActionItem. -/
structure ActionItem where
  task : String
  deadline : Option String := none
  email_id : Option Int := none
deriving DecidableEq

/-- backend/models.py DraftEmail (created_at omitted, see module note);
the metadata dict maps string keys to optional strings since the category
snapshot may be Python None. -/
structure DraftEmail where
  original_email_id : Int
  subject : String
  body : String
  suggested_tone : Option String := none
  metadata : List (String × Option String) := []
deriving DecidableEq

/-! Section: Backing file stores

A flat file read by the program is in one of three states: absent on disk,
present but unreadable/unparseable (any exception during open/json.load),
or successfully parsed to a value. -/

/-- State of a backing file as seen through open + json.load. -/
inductive FileStore (α : Type) where
  | absent
  | unreadable
  | parsed (value : α)

/-! Section: backend/prompts_manager.py -/

/-- get_default_prompts: the built-in default template set. -/
def get_default_prompts : List (String × String) :=
  [("categorization", "Categorize this email into one of: Important, Newsletter, Spam, To-Do. To-Do emails must include a direct request requiring user action. Respond with only the category name."),
   ("action_item", "Extract tasks from the email. Respond in JSON list format: [ \x7b \"task\": \"...\", \"deadline\": \"...\" \x7d ]. If no tasks, return an empty list []."),
   ("auto_reply", "If the email is a meeting request, draft a polite, concise reply asking for an agenda and proposing 1-2 time slots. Maintain a professional tone."),
   ("summary", "Summarize the following email in 2–3 bullet points, focusing on key information and any required actions."),
   ("general_agent", "You are an Email Productivity Agent helping the user manage their inbox. Always use the stored prompts as behavioral instructions whenever relevant.")]

/-- load_prompts: a missing file and any exception while reading/parsing fall
back to the defaults; a file that parses is returned exactly as parsed (the
backing store is modelled as a parsed string-to-string object). -/
def load_prompts : FileStore (List (String × String)) → List (String × String)
  | FileStore.absent => get_default_prompts
  | FileStore.unreadable => get_default_prompts
  | FileStore.parsed d => d

/-! Section: backend/llm_client.py

The environment is an explicit record; the external service is an explicit
function from the chosen model name to an outcome, standing for the network
exchange the code would perform. -/

/-- Environment configuration read via os.getenv. -/
structure Env where
  apiKey : Option String
  modelName : Option String

/-- Outcome of the external chat-completion call: the content string of the
first choice, or a raised exception carrying its message text. -/
inductive NetOutcome where
  | ok (content : String)
  | err (message : String)

/-- The external service: what the two-message exchange with the given model
name, system instruction and user content would return. -/
def Network : Type := String → String → String → NetOutcome

/-- The fixed configuration-error message returned when no credential is set. -/
def configErrMsg : String :=
  "⚠️ Error: OPENAI_API_KEY not found in environment variables. Please set it in your .env file or Streamlit secrets."

/-- call_llm: credential check (Python falsiness: unset or empty key), model
name resolution, then the network exchange with exception classification by
substring inspection of the lowered error text. -/
def call_llm (env : Env) (net : Network)
    (system_prompt user_content : String) (model : Option String) : String :=
  if !(pyTruthyStr env.apiKey) then configErrMsg
  else
    let model_name := pyOrStr model (env.modelName.getD "gpt-4o-mini")
    match net model_name system_prompt user_content with
    | NetOutcome.ok content => pyStrip content
    | NetOutcome.err msg =>
      let ml := pyLower msg
      if hasSub ml "authentication" || hasSub ml "api_key" then
        "⚠️ Authentication Error: Invalid API key. Please check your OPENAI_API_KEY."
      else if hasSub ml "rate_limit" then
        "⚠️ Rate Limit Error: Too many requests. Please wait a moment and try again."
      else if hasSub ml "model" then
        "⚠️ Model Error: The specified model may not be available. Error: " ++ msg
      else
        "⚠️ LLM Error: " ++ msg

/-- The formatting instruction call_llm_with_json appends to the system text. -/
def aiSuffix : String :=
  "\n\nIMPORTANT: Respond with valid JSON only, no additional text."

/-! Section: backend/processors.py

Each operation takes the gateway as an explicit argument
llm : system text → user text → response text, abstracting the call_llm
round trip; the claims quantify over arbitrary response strings through it. -/

/-- The subject/sender/body user message shared by categorize_email and
extract_action_items. -/
def userContentOf (e : Email) : String :=
  "Subject: " ++ e.subject ++ "\nFrom: " ++ e.from_addr ++ "\n\n" ++ e.body

/-- The fixed category vocabulary of categorize_email. -/
def valid_categories : List String :=
  ["Important", "Newsletter", "Spam", "To-Do"]

/-- categorize_email: strip the response, take its first line, strip again,
and fall back to Important when the result is not a valid category. -/
def categorize_email (llm : String → String → String) (e : Email)
    (prompts : List (String × String)) : String :=
  let user_content := userContentOf e
  let system_prompt := dGetD prompts "categorization" "Categorize this email."
  let response := llm system_prompt user_content
  let category := pyStrip (firstLineOf (pyStrip response))
  if valid_categories.contains category then category else "Important"

/-- The slice json_start:json_end isolated before parsing: from the first
left bracket to the last right bracket when that span is non-empty,
otherwise the whole response. -/
def jsonSlice (s : String) : String :=
  let cs := s.toList
  match idxFirst cs '[' with
  | none => s
  | some si =>
    match idxLast cs ']' with
    | none => s
    | some ei => if si < ei + 1 then String.mk ((cs.drop si).take (ei + 1 - si)) else s

/-- The raw gateway response extract_action_items parses (system text
extended by the JSON-only instruction of call_llm_with_json). -/
def aiResponse (llm : String → String → String) (e : Email)
    (prompts : List (String × String)) : String :=
  llm (dGetD prompts "action_item" "Extract tasks from the email." ++ aiSuffix) (userContentOf e)

/-- Conversion of one parsed array element: an object becomes an ActionItem
(task field with empty-string default, optional deadline, source email id);
any other element is skipped. -/
def toActionItemOf (eid : Int) : JVal → Option ActionItem
  | JVal.obj kvs =>
    some { task := jStrD kvs "task" "", deadline := jOptStr kvs "deadline", email_id := some eid }
  | _ => none

/-- extract_action_items: parse the bracketed slice of the response, iterate
the parsed value Python-style, convert object elements, and return the empty
list on any parse or iteration failure. -/
def extract_action_items (llm : String → String → String) (e : Email)
    (prompts : List (String × String)) : List ActionItem :=
  match parseJson (jsonSlice (aiResponse llm e prompts)) with
  | none => []
  | some j =>
    match pyIterElems j with
    | none => []
    | some elems => elems.filterMap (toActionItemOf e.id)

/-- The subject/sender/date/body user message of summarize_email. -/
def sumContentOf (e : Email) : String :=
  "Subject: " ++ e.subject ++ "\nFrom: " ++ e.from_addr ++ "\nDate: " ++ e.timestamp ++ "\n\n" ++ e.body

/-- summarize_email: one gateway call, response returned verbatim. -/
def summarize_email (llm : String → String → String) (e : Email)
    (prompts : List (String × String)) : String :=
  llm (dGetD prompts "summary" "Summarize this email.") (sumContentOf e)

/-- The user message of draft_reply embedding the full original email. -/
def draftUserContent (e : Email) : String :=
  "Original Email:\nSubject: " ++ e.subject ++ "\nFrom: " ++ e.from_addr ++ "\nDate: "
    ++ e.timestamp ++ "\n\n" ++ e.body ++ "\n\n---\nDraft a reply to this email."

/-- The system text of draft_reply: the auto-reply template, with a tone
directive appended when a (truthy) tone is supplied. -/
def draftSystemOf (prompts : List (String × String)) (user_tone : Option String) : String :=
  let system_prompt := dGetD prompts "auto_reply" "Draft a professional reply."
  match user_tone with
  | some t => if t.isEmpty then system_prompt else system_prompt ++ "\n\nTone: " ++ t
  | none => system_prompt

/-- draft_reply: wrap the raw response into a DraftEmail with derived subject
and snapshot metadata. -/
def draft_reply (llm : String → String → String) (e : Email)
    (prompts : List (String × String)) (user_tone : Option String) : DraftEmail :=
  let response := llm (draftSystemOf prompts user_tone) (draftUserContent e)
  { original_email_id := e.id
    subject := "Re: " ++ e.subject
    body := response
    suggested_tone := user_tone
    metadata := [("original_from", some e.from_addr),
                 ("original_subject", some e.subject),
                 ("category", e.category)] }

/-! Section: backend/inbox_loader.py -/

/-- Conversion of one loaded item: an object becomes an Email with the
stated per-field defaults; a non-object item raises inside the per-item
try/except and is skipped. -/
def itemToEmail : JVal → Option Email
  | JVal.obj kvs =>
    some { id := jIntD kvs "id" 0
           from_addr := jStrD kvs "from" "unknown@example.com"
           to_addr := jStrD kvs "to" "user@company.com"
           subject := jStrD kvs "subject" "No Subject"
           body := jStrD kvs "body" ""
           timestamp := jStrD kvs "timestamp" ""
           raw_folder := jStrD kvs "raw_folder" "INBOX"
           category := none }
  | _ => none

/-- load_inbox: a missing or unreadable file yields the empty list; a parsed
file is iterated Python-style (a non-iterable parse raising TypeError is
caught by the outer handler, also yielding the empty list), converting
object items and skipping the rest. -/
def load_inbox : FileStore JVal → List Email
  | FileStore.absent => []
  | FileStore.unreadable => []
  | FileStore.parsed j =>
    match pyIterElems j with
    | none => []
    | some items => items.filterMap itemToEmail

/-- get_email_by_id: first email whose id matches, None when there is none. -/
def get_email_by_id : List Email → Int → Option Email
  | [], _ => none
  | e :: rest, i => if e.id = i then some e else get_email_by_id rest i

/-! Section: backend/agent.py -/

/-- The selected-email context block of the agent user message. -/
def emailContextOf (e : Email) : String :=
  "\nCurrently Selected Email:\nID: " ++ toString e.id ++ "\nFrom: " ++ e.from_addr
    ++ "\nSubject: " ++ e.subject ++ "\nCategory: " ++ pyOrStr e.category "Uncategorized"
    ++ "\nDate: " ++ e.timestamp ++ "\n\nBody:\n" ++ e.body ++ "\n"

/-- Insertion-ordered category counting (the Python dict accumulation of the
inbox overview). -/
def bumpCount : List (String × Nat) → String → List (String × Nat)
  | [], k => [(k, 1)]
  | (a, n) :: t, k => if a = k then (a, n + 1) :: t else (a, n) :: bumpCount t k

/-- The category breakdown of the inbox, in first-appearance order. -/
def catCounts (inbox : List Email) : List (String × Nat) :=
  inbox.foldl (fun acc e => bumpCount acc (pyOrStr e.category "Uncategorized")) []

/-- The inbox overview block of the agent user message. -/
def inboxOverviewOf (inbox : List Email) : String :=
  "\nTotal emails in inbox: " ++ toString inbox.length ++ "\n"
    ++ (if inbox.isEmpty then ""
        else "Categories: " ++ String.intercalate ", "
          ((catCounts inbox).map (fun p => p.1 ++ ": " ++ toString p.2)))

/-- The fixed capabilities text appended to the general-agent template. -/
def capabilitiesText : String :=
  "\n\nAvailable capabilities:\n- Summarize emails\n- Extract action items and tasks\n- Draft replies\n- Categorize emails (Important, Newsletter, Spam, To-Do)\n- Filter and search emails\n\nWhen asked about tasks or to-dos, check if emails are categorized as \"To-Do\".\nWhen asked about urgent emails, look for \"Important\" category.\nBe helpful, concise, and actionable.\n"

/-- The system text of the general fall-through gateway call. -/
def generalSystem (prompts : List (String × String)) : String :=
  dGetD prompts "general_agent" "You are an Email Productivity Agent." ++ capabilitiesText

/-- The user message of the general fall-through gateway call. -/
def userMessageOf (user_query : String) (sel : Option Email) (inbox : List Email) : String :=
  inboxOverviewOf inbox ++ "\n\n"
    ++ (match sel with | some e => emailContextOf e | none => "")
    ++ "\n\nUser Query: " ++ user_query

/-- Condition of the summarize-this pattern: an email is selected and the
lowered query carries a summarize/summary cue together with a this/email cue. -/
def branch1Cond (sel : Option Email) (ql : String) : Bool :=
  sel.isSome && (hasSub ql "summarize" || hasSub ql "summary")
    && (hasSub ql "this" || hasSub ql "email")

/-- Condition of the tasks-from-this pattern: an email is selected and the
lowered query carries a task/to-do/action cue together with a this/email cue. -/
def branch2Cond (sel : Option Email) (ql : String) : Bool :=
  sel.isSome && (hasSub ql "task" || hasSub ql "to-do" || hasSub ql "action")
    && (hasSub ql "this" || hasSub ql "email")

/-- One bullet line of the tasks-from-this answer (a falsy deadline is
rendered without the due suffix). -/
def taskLine (a : ActionItem) : String :=
  "- " ++ a.task
    ++ (match a.deadline with
        | some d => if d.isEmpty then "" else " (Due: " ++ d ++ ")"
        | none => "")

/-- The tasks-from-this answer text. -/
def taskAnswer (actions : List ActionItem) (eid : Int) : String :=
  if actions.isEmpty then "No specific tasks found in this email."
  else "✅ **Tasks from Email #" ++ toString eid ++ ":**\n\n"
    ++ String.intercalate "\n" (actions.map taskLine)

/-- One bullet line of the important/to-do listings. -/
def bulletLineOf (e : Email) : String :=
  "- **ID " ++ toString e.id ++ "**: " ++ e.subject ++ " (from " ++ e.from_addr ++ ")\n"

/-- The important-intent answer: filter to category Important, render the
first five as bullet lines appended onto the header, and append the
remainder suffix when more than five exist; fixed message when none. -/
def importantBranch (inbox : List Email) : String :=
  let important_emails := inbox.filter (fun e => e.category == some "Important")
  if important_emails.isEmpty then "No emails marked as Important."
  else
    let header := "🔴 **Important Emails (" ++ toString important_emails.length ++ "):**\n\n"
    let result := (important_emails.take 5).foldl (fun acc e => acc ++ bulletLineOf e) header
    if important_emails.length > 5 then
      result ++ "\n... and " ++ toString (important_emails.length - 5) ++ " more"
    else result

/-- The to-do-intent answer, same shape against category To-Do. -/
def todoBranch (inbox : List Email) : String :=
  let todo_emails := inbox.filter (fun e => e.category == some "To-Do")
  if todo_emails.isEmpty then "No emails categorized as To-Do."
  else
    let header := "📋 **To-Do Emails (" ++ toString todo_emails.length ++ "):**\n\n"
    let result := (todo_emails.take 5).foldl (fun acc e => acc ++ bulletLineOf e) header
    if todo_emails.length > 5 then
      result ++ "\n... and " ++ toString (todo_emails.length - 5) ++ " more"
    else result

/-- The intents checked after the two selected-email patterns, ending in the
general gateway fall-through. -/
def afterPatterns (llm : String → String → String) (user_query ql : String)
    (sel : Option Email) (prompts : List (String × String)) (inbox : List Email) : String :=
  if hasSub ql "urgent" || hasSub ql "important" then importantBranch inbox
  else if hasSub ql "to-do" || hasSub ql "todo" then todoBranch inbox
  else llm (generalSystem prompts) (userMessageOf user_query sel inbox)

/-- run_agent_query: the keyword-matched intent router, patterns checked in
source order on the lowered query, falling through to the general gateway
call. -/
def run_agent_query (llm : String → String → String) (user_query : String)
    (sel : Option Email) (prompts : List (String × String)) (inbox : List Email) : String :=
  let ql := pyLower user_query
  match sel with
  | some e =>
    if branch1Cond (some e) ql then
      "📧 **Summary of Email #" ++ toString e.id ++ ":**\n\n" ++ summarize_email llm e prompts
    else if branch2Cond (some e) ql then
      taskAnswer (extract_action_items llm e prompts) e.id
    else afterPatterns llm user_query ql (some e) prompts inbox
  | none => afterPatterns llm user_query ql none prompts inbox

/-! Section: app.py processing pass -/

/-- The category write of the processing loop. -/
def setCategory (e : Email) (c : String) : Email :=
  { e with category := some c }

/-- process_all_emails: the sequential loop over the loaded emails; for each
email the category result is computed and the action items extracted, the
pair is recorded in the processed map (keyed by email id), and the email
object receives the category write.  The two operations are pure given the
gateway, so the loop is the pair of maps below. -/
def process_all_emails (llm : String → String → String)
    (prompts : List (String × String)) (emails : List Email) :
    List Email × List (Int × String × List ActionItem) :=
  (emails.map (fun e => setCategory e (categorize_email llm e prompts)),
   emails.map (fun e => (e.id, categorize_email llm e prompts, extract_action_items llm e prompts)))

/-! Section: Specification-side definitions

Each definition below follows the wording of a spec claim (not the source)
and is compared against the corresponding source translation above. -/

/-- The five template slot names of the PromptTemplate set. -/
def fiveKeys : List String :=
  ["categorization", "action_item", "auto_reply", "summary", "general_agent"]

/-- Do all five template slots occur in the mapping? -/
def hasAllFive (d : List (String × String)) : Bool :=
  fiveKeys.all (fun k => (dGet d k).isSome)

/-- Claim C2 wording: take the first line of the response, trim whitespace,
and default to Important when the trimmed first line is not a valid label. -/
def claimCategoryOf (response : String) : String :=
  if valid_categories.contains (pyStrip (firstLineOf response)) then
    pyStrip (firstLineOf response)
  else "Important"

/-- The categorize_email post-processing as the code performs it: trim the
response, take the first line, trim again, validate. -/
def codeCategoryOf (response : String) : String :=
  if valid_categories.contains (pyStrip (firstLineOf (pyStrip response))) then
    pyStrip (firstLineOf (pyStrip response))
  else "Important"

/-- Claim C4 wording: one ActionItem per object element of the parsed array,
non-object elements skipped, task from the task field, deadline from the
optional deadline field, email_id the source email id. -/
def claimItemsOf (eid : Int) (elems : List JVal) : List ActionItem :=
  elems.filterMap (fun j =>
    match j with
    | JVal.obj kvs =>
      some { task := jStrD kvs "task" ""
             deadline := jOptStr kvs "deadline"
             email_id := some eid }
    | _ => none)

/-- Concatenation of rendered bullet lines (spec-side rendering helper). -/
def bulletsOf (f : Email → String) : List Email → String
  | [] => ""
  | e :: t => f e ++ bulletsOf f t

/-- Claim C6 wording of the important-intent answer: filter the record set
to category Important; when non-empty list up to five as a bulleted
id+subject+sender list with a remainder suffix when truncated; when empty
the fixed none-found message. -/
def claimImportantAnswer (inbox : List Email) : String :=
  let imp := inbox.filter (fun e => e.category == some "Important")
  if imp.isEmpty then "No emails marked as Important."
  else
    "🔴 **Important Emails (" ++ toString imp.length ++ "):**\n\n"
      ++ bulletsOf bulletLineOf (imp.take 5)
      ++ (if imp.length > 5 then "\n... and " ++ toString (imp.length - 5) ++ " more" else "")

/-- Claim C8 record semantics, amended: every field of a loaded record is
optional, with the stated defaults and id defaulting to 0. -/
def claimLoadedRecord (kvs : List (String × JVal)) : Email :=
  { id := jIntD kvs "id" 0
    from_addr := jStrD kvs "from" "unknown@example.com"
    to_addr := jStrD kvs "to" "user@company.com"
    subject := jStrD kvs "subject" "No Subject"
    body := jStrD kvs "body" ""
    timestamp := jStrD kvs "timestamp" ""
    raw_folder := jStrD kvs "raw_folder" "INBOX"
    category := none }

/-- An email with every field other than category blanked, for stating that
an operation leaves everything but category unchanged. -/
def stripCategory (e : Email) : Email :=
  { e with category := none }

/-! Section: Concrete sample data for witnesses and counterexamples -/

/-- A concrete email record. -/
def sampleEmail : Email :=
  { id := 1, from_addr := "alice@example.com", to_addr := "user@company.com",
    subject := "Meeting", body := "Hello", timestamp := "2024-01-01", raw_folder := "INBOX",
    category := none }

/-- A placeholder record for positional list access. -/
def dummyEmail : Email :=
  { id := 0, from_addr := "", to_addr := "", subject := "", body := "", timestamp := "",
    raw_folder := "INBOX", category := none }

/-- An Important-labelled record with the given id. -/
def impEmail (n : Int) : Email :=
  { id := n, from_addr := "a@b.c", to_addr := "u@x.com", subject := "S", body := "",
    timestamp := "", raw_folder := "INBOX", category := some "Important" }

/-- Seven Important-labelled records. -/
def sevenImportant : List Email :=
  [impEmail 1, impEmail 2, impEmail 3, impEmail 4, impEmail 5, impEmail 6, impEmail 7]

/-! Section: Helper lemmas -/

/-- String concatenation is associative. -/
theorem strAppendAssoc : ∀ (a b c : String), a ++ b ++ c = a ++ (b ++ c)
  | String.mk la, String.mk lb, String.mk lc => congrArg String.mk (List.append_assoc la lb lc)

/-- The empty string is right neutral for concatenation. -/
theorem strAppendEmpty : ∀ (a : String), a ++ "" = a
  | String.mk la => congrArg String.mk (List.append_nil la)

/-- Left folds that append one rendered line per element concatenate the
rendered bullet block onto the accumulator. -/
theorem foldl_append_bullets (f : Email → String) :
    ∀ (l : List Email) (acc : String),
      l.foldl (fun a e => a ++ f e) acc = acc ++ bulletsOf f l
  | [], acc => (strAppendEmpty acc).symm
  | e :: t, acc => by
    rw [List.foldl_cons, foldl_append_bullets f t (acc ++ f e), bulletsOf, strAppendAssoc]

/-- The important-intent branch of the router renders exactly the answer the
claim describes. -/
theorem importantBranch_eq_claim (inbox : List Email) :
    importantBranch inbox = claimImportantAnswer inbox := by
  simp only [importantBranch, claimImportantAnswer]
  by_cases h : (inbox.filter (fun e => e.category == some "Important")).isEmpty = true
  · rw [if_pos h, if_pos h]
  · rw [if_neg h, if_neg h, foldl_append_bullets]
    by_cases h5 : (inbox.filter (fun e => e.category == some "Important")).length > 5
    · rw [if_pos h5, if_pos h5]
      simp only [strAppendAssoc]
    · rw [if_neg h5, if_neg h5, strAppendEmpty]

/-- Elements that are one-character or key strings never convert to action
items. -/
theorem filterMap_str_none (eid : Int) (l : List JVal)
    (h : ∀ x ∈ l, ∃ s, x = JVal.str s) :
    l.filterMap (toActionItemOf eid) = [] := by
  rw [List.filterMap_eq_nil_iff]
  intro a ha
  obtain ⟨s, rfl⟩ := h a ha
  rfl

/-- getD of a mapped list at an in-range index. -/
theorem getD_map_lt (f : Email → Email) (d : Email) :
    ∀ (l : List Email) (i : Nat), i < l.length → (l.map f).getD i d = f (l.getD i d)
  | [], i, h => absurd h (by simp)
  | a :: t, 0, _ => rfl
  | a :: t, Nat.succ i, h => by
    rw [List.map_cons, List.getD_cons_succ, List.getD_cons_succ]
    exact getD_map_lt f d t i (by simpa using h)

/-- A loop over emails whose ids all differ from the target returns none. -/
theorem lookupNoneOfAbsent : ∀ (emails : List Email) (i : Int),
    (∀ e ∈ emails, e.id ≠ i) → get_email_by_id emails i = none
  | [], _, _ => rfl
  | a :: t, i, h => by
    rw [get_email_by_id, if_neg (h a (List.mem_cons_self a t))]
    exact lookupNoneOfAbsent t i (fun e he => h e (List.mem_cons_of_mem a he))

/-- The loop returns the first matching email. -/
theorem lookupFirstMatch : ∀ (l1 : List Email) (e : Email) (l2 : List Email) (i : Int),
    (∀ x ∈ l1, x.id ≠ i) → e.id = i → get_email_by_id (l1 ++ e :: l2) i = some e
  | [], e, l2, i, _, he => by rw [List.nil_append, get_email_by_id, if_pos he]
  | a :: t, e, l2, i, h, he => by
    rw [List.cons_append, get_email_by_id, if_neg (h a (List.mem_cons_self a t))]
    exact lookupFirstMatch t e l2 i (fun x hx => h x (List.mem_cons_of_mem a hx)) he

/-- A successful lookup returns a member carrying the requested id. -/
theorem lookupSound : ∀ (emails : List Email) (i : Int) (e : Email),
    get_email_by_id emails i = some e → e.id = i ∧ e ∈ emails
  | [], _, _, h => Option.noConfusion h
  | a :: t, i, e, h => by
    rw [get_email_by_id] at h
    by_cases ha : a.id = i
    · rw [if_pos ha] at h
      cases Option.some.inj h
      exact ⟨ha, List.mem_cons_self a t⟩
    · rw [if_neg ha] at h
      obtain ⟨h1, h2⟩ := lookupSound t i e h
      exact ⟨h1, List.mem_cons_of_mem a h2⟩

/-- The category produced by codeCategoryOf is always a valid label. -/
theorem codeCategory_mem (r : String) :
    valid_categories.contains (codeCategoryOf r) = true := by
  unfold codeCategoryOf
  split
  · assumption
  · rfl

/-! Section: Claim theorems -/

/-- C1, counterexample: a backing store that parses but holds only the
categorization slot is partial (hasAllFive is false on it), yet load_prompts
returns it verbatim, so the action_item slot is absent from the loaded set —
refuting the invariant that all five keys are always present after a load
from a partial store. -/
theorem c1_sparseStoreKeyAbsent :
    hasAllFive [("categorization", "Categorize.")] = false
  ∧ load_prompts (FileStore.parsed [("categorization", "Categorize.")])
      = [("categorization", "Categorize.")]
  ∧ dGet (load_prompts (FileStore.parsed [("categorization", "Categorize.")])) "action_item"
      = none :=
  ⟨rfl, rfl, rfl⟩

/-- C1, amended: after a load from an absent or unreadable backing store the
template set contains all five keys (the built-in defaults); a store that
parses is returned exactly as stored, so keys missing from a partial store
stay absent (downstream lookups supply per-call fallbacks instead). -/
theorem c1_loadPromptsDefaults :
    hasAllFive (load_prompts FileStore.absent) = true
  ∧ hasAllFive (load_prompts FileStore.unreadable) = true
  ∧ ∀ d : List (String × String), load_prompts (FileStore.parsed d) = d :=
  ⟨rfl, rfl, fun _ => rfl⟩

/-- C2, counterexample: on the gateway response consisting of a newline then
Spam, the trimmed first line of the response is empty and not a valid label,
so the claimed procedure yields Important, yet categorize_email returns Spam
(the code trims the whole response before splitting off the first line). -/
theorem c2_firstLineOrderDiffers :
    pyStrip (firstLineOf "\nSpam") = ""
  ∧ claimCategoryOf "\nSpam" = "Important"
  ∧ categorize_email (fun _ _ => "\nSpam") sampleEmail [] = "Spam"
  ∧ ("Spam" : String) ≠ "Important" :=
  ⟨rfl, rfl, rfl, by decide⟩

/-- C2, amended: for every email, template set and gateway response,
categorize_email strips the response, takes the first line, strips it again,
validates it against the four labels and falls back to Important, so the
returned value is always a member of the label set Important, Newsletter,
Spam, To-Do. -/
theorem c2_categoryAlwaysValid (llm : String → String → String) (e : Email)
    (prompts : List (String × String)) :
    categorize_email llm e prompts
      = codeCategoryOf (llm (dGetD prompts "categorization" "Categorize this email.") (userContentOf e))
  ∧ valid_categories.contains (categorize_email llm e prompts) = true :=
  ⟨rfl, codeCategory_mem _⟩

/-- C5: draft_reply returns a DraftEmail whose subject is Re: plus the
original subject regardless of the tone argument, whose body is the raw
gateway response to the drafting exchange, and whose metadata snapshots the
original sender, subject and category. -/
theorem c5_draftReplyShape (llm : String → String → String) (e : Email)
    (prompts : List (String × String)) (tone : Option String) :
    (draft_reply llm e prompts tone).subject = "Re: " ++ e.subject
  ∧ (draft_reply llm e prompts tone).body
      = llm (draftSystemOf prompts tone) (draftUserContent e)
  ∧ (draft_reply llm e prompts tone).original_email_id = e.id
  ∧ (draft_reply llm e prompts tone).suggested_tone = tone
  ∧ (draft_reply llm e prompts tone).metadata
      = [("original_from", some e.from_addr), ("original_subject", some e.subject),
         ("category", e.category)] :=
  ⟨rfl, rfl, rfl, rfl, rfl⟩

/-- C7: call_llm is total by construction (it returns a string on every
environment and network outcome), and with no credential configured — the
key unset or empty, both falsy in the source check — it returns the fixed
configuration-error message whatever the external service would do, i.e.
without consulting the network. -/
theorem c7_noCredentialFixedMessage (mn : Option String) (net : Network)
    (s u : String) (m : Option String) :
    call_llm { apiKey := none, modelName := mn } net s u m = configErrMsg
  ∧ call_llm { apiKey := some "", modelName := mn } net s u m = configErrMsg :=
  ⟨rfl, rfl⟩

/-- C8, counterexample: a source record carrying no fields at all — in
particular no id — still loads, receiving id 0: the id field is optional
with default 0, refuting the claim that id is the only field without a
default. -/
theorem c8_idHasDefaultZero :
    load_inbox (FileStore.parsed (JVal.arr [JVal.obj []]))
      = [{ id := 0, from_addr := "unknown@example.com", to_addr := "user@company.com",
           subject := "No Subject", body := "", timestamp := "", raw_folder := "INBOX",
           category := none }] :=
  rfl

/-- C8, amended: load_inbox is total; a missing or unreadable source yields
the empty record set, and every object record loads with all seven fields
optional under the stated defaults, id included (its default is 0). -/
theorem c8_loadInboxDefaults :
    load_inbox FileStore.absent = []
  ∧ load_inbox FileStore.unreadable = []
  ∧ ∀ kvs : List (String × JVal), itemToEmail (JVal.obj kvs) = some (claimLoadedRecord kvs) :=
  ⟨rfl, rfl, fun _ => rfl⟩

/-- C10: get_email_by_id returns None exactly when no email carries the
requested id, returns the first email of the list carrying it otherwise, and
any returned email is a member carrying that id — so callers must handle an
absent lookup result despite the declared non-optional return type. -/
theorem c10_lookupFirstOrNone (emails : List Email) (i : Int) :
    ((∀ e ∈ emails, e.id ≠ i) → get_email_by_id emails i = none)
  ∧ (∀ (l1 : List Email) (e : Email) (l2 : List Email),
      emails = l1 ++ e :: l2 → (∀ x ∈ l1, x.id ≠ i) → e.id = i →
      get_email_by_id emails i = some e)
  ∧ (∀ e : Email, get_email_by_id emails i = some e → e.id = i ∧ e ∈ emails) :=
  ⟨lookupNoneOfAbsent emails i,
   fun l1 e l2 hsplit hpre hid => hsplit ▸ lookupFirstMatch l1 e l2 i hpre hid,
   fun e h => lookupSound emails i e h⟩

/-- C10, witness: on a one-element list the lookup misses id 99 and finds
id 1. -/
theorem c10_lookupWitness :
    get_email_by_id [sampleEmail] 99 = none
  ∧ get_email_by_id [sampleEmail] 1 = some sampleEmail := by
  constructor
  · exact (c10_lookupFirstOrNone [sampleEmail] 99).1 (by decide)
  · exact (c10_lookupFirstOrNone [sampleEmail] 1).2.1 [] sampleEmail [] rfl (by simp) rfl

/-- C3: whenever the bracketed slice of the gateway response does not parse
to a JSON array — the parse raises, or the parsed value has the wrong shape —
extract_action_items returns the empty list; the function is total by
construction, so no exception reaches the caller. -/
theorem c3_parseFailureEmpty (llm : String → String → String) (e : Email)
    (prompts : List (String × String))
    (h : ∀ elems : List JVal,
      parseJson (jsonSlice (aiResponse llm e prompts)) ≠ some (JVal.arr elems)) :
    extract_action_items llm e prompts = [] := by
  unfold extract_action_items
  cases hp : parseJson (jsonSlice (aiResponse llm e prompts)) with
  | none => rfl
  | some j =>
    cases j with
    | arr xs => exact absurd hp (h xs)
    | obj kvs =>
      simp only [pyIterElems]
      refine filterMap_str_none e.id _ (fun x hx => ?_)
      obtain ⟨k, _, rfl⟩ := List.mem_map.mp hx
      exact ⟨k, rfl⟩
    | str s =>
      simp only [pyIterElems]
      refine filterMap_str_none e.id _ (fun x hx => ?_)
      obtain ⟨c, _, rfl⟩ := List.mem_map.mp hx
      exact ⟨String.mk [c], rfl⟩
    | null => rfl
    | bool b => rfl
    | num n => rfl

/-- C3, witness: on the prose response with no JSON in it the extraction
yields the empty list. -/
theorem c3_proseResponseWitness :
    extract_action_items (fun _ _ => "I cannot help with that.") sampleEmail [] = [] := by
  apply c3_parseFailureEmpty
  intro elems hcontra
  have hnone : parseJson (jsonSlice
      (aiResponse (fun _ _ => "I cannot help with that.") sampleEmail [])) = none := rfl
  rw [hnone] at hcontra
  exact Option.noConfusion hcontra

/-- C4: whenever the slice from the first left bracket to the last right
bracket of the gateway response (the whole response when no such span
exists) parses to a JSON array, extract_action_items returns one ActionItem
per object element — non-object elements skipped — with task from the task
field (empty default), deadline from the optional deadline field, and
email_id the source email id. -/
theorem c4_arrayItemsExtracted (llm : String → String → String) (e : Email)
    (prompts : List (String × String)) (elems : List JVal)
    (h : parseJson (jsonSlice (aiResponse llm e prompts)) = some (JVal.arr elems)) :
    extract_action_items llm e prompts = claimItemsOf e.id elems := by
  unfold extract_action_items
  rw [h]
  rfl

/-- C4, witness: the two response forms of the spec — the bare array with a
task and a deadline, and an array wrapped in prose with no deadline — yield
exactly the stated items. -/
theorem c4_extractionWitness :
    extract_action_items
      (fun _ _ => "[\x7b\"task\":\"Reply to client\",\"deadline\":\"Friday\"\x7d]")
      sampleEmail []
      = [{ task := "Reply to client", deadline := some "Friday", email_id := some 1 }]
  ∧ extract_action_items
      (fun _ _ => "Here are the tasks:\n[\x7b\"task\":\"Book room\"\x7d]\nLet me know.")
      sampleEmail []
      = [{ task := "Book room", deadline := none, email_id := some 1 }] := by
  constructor
  · exact (c4_arrayItemsExtracted
      (fun _ _ => "[\x7b\"task\":\"Reply to client\",\"deadline\":\"Friday\"\x7d]") sampleEmail []
      [JVal.obj [("task", JVal.str "Reply to client"), ("deadline", JVal.str "Friday")]]
      rfl).trans rfl
  · exact (c4_arrayItemsExtracted
      (fun _ _ => "Here are the tasks:\n[\x7b\"task\":\"Book room\"\x7d]\nLet me know.") sampleEmail []
      [JVal.obj [("task", JVal.str "Book room")]] rfl).trans rfl

/-- C6, counterexample: the query asking to summarize this important email,
with an email selected and no Important-labelled records, mentions
importance yet is answered by the higher-precedence summarize pattern: the
router returns a summary built from a gateway call (its output varies with
the gateway) instead of the fixed none-found message the claim requires. -/
theorem c6_precedenceOverridesImportant :
    hasSub (pyLower "summarize this important email") "important" = true
  ∧ run_agent_query (fun _ _ => "AAA") "summarize this important email"
      (some sampleEmail) [] [] = "📧 **Summary of Email #1:**\n\nAAA"
  ∧ run_agent_query (fun _ _ => "AAA") "summarize this important email"
      (some sampleEmail) [] [] ≠ "No emails marked as Important."
  ∧ run_agent_query (fun _ _ => "AAA") "summarize this important email"
      (some sampleEmail) [] []
      ≠ run_agent_query (fun _ _ => "BBB") "summarize this important email"
          (some sampleEmail) [] [] := by
  refine ⟨rfl, rfl, ?_, ?_⟩ <;> decide

/-- C6, amended: whenever the lowered query mentions urgency or importance
and neither higher-precedence selected-email pattern (summarize-this,
tasks-from-this) matches, the router returns the important-intent answer the
claim describes — Important-filtered records, at most five bulleted
id+subject+sender lines, a remainder suffix when truncated, the fixed
none-found message when empty — and the result is the same for every
gateway, i.e. no gateway call influences it. -/
theorem c6_importantIntentAnswer (llm llm2 : String → String → String)
    (q : String) (sel : Option Email) (prompts : List (String × String))
    (inbox : List Email)
    (h3 : (hasSub (pyLower q) "urgent" || hasSub (pyLower q) "important") = true)
    (h1 : branch1Cond sel (pyLower q) = false)
    (h2 : branch2Cond sel (pyLower q) = false) :
    run_agent_query llm q sel prompts inbox = claimImportantAnswer inbox
  ∧ run_agent_query llm q sel prompts inbox = run_agent_query llm2 q sel prompts inbox := by
  have key : ∀ f : String → String → String,
      run_agent_query f q sel prompts inbox = claimImportantAnswer inbox := by
    intro f
    cases sel with
    | none =>
      simp only [run_agent_query, afterPatterns, h3, if_true]
      exact importantBranch_eq_claim inbox
    | some e =>
      simp only [run_agent_query, afterPatterns, h1, h2, h3, if_true,
        Bool.false_eq_true, if_false]
      exact importantBranch_eq_claim inbox
  exact ⟨key llm, (key llm).trans (key llm2).symm⟩

set_option maxRecDepth 8000 in
/-- C6, witness: with seven Important-labelled records the query lists
exactly five bullets and says two more; with none it returns the fixed
none-found message — identically for two different gateways. -/
theorem c6_truncationWitness :
    run_agent_query (fun _ _ => "AAA") "show me important emails" none [] sevenImportant
      = "🔴 **Important Emails (7):**\n\n- **ID 1**: S (from a@b.c)\n- **ID 2**: S (from a@b.c)\n- **ID 3**: S (from a@b.c)\n- **ID 4**: S (from a@b.c)\n- **ID 5**: S (from a@b.c)\n\n... and 2 more"
  ∧ run_agent_query (fun _ _ => "AAA") "show me important emails" none [] [] =
      "No emails marked as Important." := by
  constructor
  · exact ((c6_importantIntentAnswer (fun _ _ => "AAA") (fun _ _ => "BBB")
      "show me important emails" none [] sevenImportant rfl rfl rfl).1).trans (by decide)
  · exact ((c6_importantIntentAnswer (fun _ _ => "AAA") (fun _ _ => "BBB")
      "show me important emails" none [] [] rfl rfl rfl).1).trans rfl

/-- C9: a processing pass maps each email to the same record with only the
category field changed, and the value written is exactly the categorize
result for that email — the single write per pass; every other modelled
operation takes emails read-only, so no other component writes category. -/
theorem c9_categorySingleWrite (llm : String → String → String)
    (prompts : List (String × String)) (emails : List Email) (i : Nat)
    (h : i < emails.length) :
    (process_all_emails llm prompts emails).1.length = emails.length
  ∧ ((process_all_emails llm prompts emails).1.getD i dummyEmail).category
      = some (categorize_email llm (emails.getD i dummyEmail) prompts)
  ∧ stripCategory ((process_all_emails llm prompts emails).1.getD i dummyEmail)
      = stripCategory (emails.getD i dummyEmail) := by
  refine ⟨by simp [process_all_emails], ?_, ?_⟩
  · rw [show (process_all_emails llm prompts emails).1
        = emails.map (fun e => setCategory e (categorize_email llm e prompts)) from rfl,
      getD_map_lt _ _ _ _ h]
    rfl
  · rw [show (process_all_emails llm prompts emails).1
        = emails.map (fun e => setCategory e (categorize_email llm e prompts)) from rfl,
      getD_map_lt _ _ _ _ h]
    rfl

/-- C9, witness: a pass over a one-email inbox with a gateway answering Spam
writes category Spam into that email. -/
theorem c9_passWitness :
    ((process_all_emails (fun _ _ => "Spam") [] [sampleEmail]).1.getD 0 dummyEmail).category
      = some "Spam" := by
  exact ((c9_categorySingleWrite (fun _ _ => "Spam") [] [sampleEmail] 0 (by decide)).2.1).trans rfl

end EmailAgent
